import Mathlib

/-!
Verification of the checkout_gen provider orchestration layer.

Shallow embedding of:
- `src/lib/tilopay.ts` (single-call TiloPay adapter),
- `src/lib/onvo.ts` (multi-step ONVO adapter),
- `src/app/api/generate/route.ts` (orchestration endpoint `POST /api/generate`),
- `src/app/api/tilopay/create-link/route.ts` (TiloPay create-link endpoint).

JavaScript numbers are modelled as rationals (every finite double is a
rational; only integrality and sign of amounts are ever branched on).
The network is modelled by an oracle: each outbound `fetch` consumes one
`Wire` value describing the transport-level outcome (network failure,
non-2xx response, or 2xx body).  Every adapter operation returns both its
result (`Except Err _`, mirroring throw-based control flow) and the list
of outbound calls actually attempted, in order, so call counts, call order
and payload contents are provable.
-/

/-- JSON response body fields the orchestration layer ever reads back:
an identifier and/or a redirect URL.  A field absent from the wire JSON is
`none` (TypeScript casts hide this; the runtime value is `undefined`). -/
structure RespBody where
  id : Option String := none
  url : Option String := none
deriving DecidableEq, Repr

/-- Line item `\x7b priceId, quantity \x7d` used by ONVO subscription and
checkout payloads. -/
structure LineItem where
  priceId : Option String
  quantity : Nat
deriving DecidableEq, Repr

/-- Nested `recurring` object of an ONVO price payload. -/
structure RecurringSpec where
  interval : String
  intervalCount : Nat
deriving DecidableEq, Repr

/-- Union of every outbound JSON payload field used by either adapter.
A field not set by a given call is `none` / absent. -/
structure Payload where
  amount : Option ℚ := none
  unitAmount : Option ℚ := none
  currency : Option String := none
  description : Option String := none
  interval : Option String := none
  captureMethod : Option String := none
  name : Option String := none
  isActive : Option Bool := none
  isShippable : Option Bool := none
  type : Option String := none
  recurring : Option RecurringSpec := none
  productId : Option String := none
  customerId : Option String := none
  paymentBehavior : Option String := none
  items : Option (List LineItem) := none
  lineItems : Option (List LineItem) := none
  success_url : Option String := none
  cancel_url : Option String := none
  redirectUrl : Option String := none
  cancelUrl : Option String := none
deriving DecidableEq, Repr

/-- One outbound provider call: target path and JSON payload. -/
structure Call where
  path : String
  payload : Payload
deriving DecidableEq, Repr

/-- `TilopayError` (class in `src/lib/tilopay.ts`): message plus optional
HTTP status and provider code. -/
structure TilopayError where
  message : String
  statusCode : Option Nat := none
  code : Option String := none
deriving DecidableEq, Repr

/-- `OnvoError` (class in `src/lib/onvo.ts`). -/
structure OnvoError where
  message : String
  statusCode : Option Nat := none
  apiCode : Option String := none
deriving DecidableEq, Repr

/-- A thrown JavaScript error as seen by the route handlers: either a
provider error class, or any other `Error` (e.g. a JSON parse failure). -/
inductive Err where
  | tilo (e : TilopayError)
  | onvo (e : OnvoError)
  | generic (msg : String)
deriving DecidableEq, Repr

/-- `error instanceof Error ? error.message : 'Unknown error'` — all
modelled errors are `Error`s carrying a message. -/
def errMessage : Err → String
  | .tilo e => e.message
  | .onvo e => e.message
  | .generic m => m

/-- Parsed error body shape `TilopayApiError` of a non-2xx TiloPay
response. -/
structure TilopayApiError where
  message : Option String := none
  error : Option String := none
  code : Option String := none
deriving DecidableEq, Repr

/-- Parsed error body shape `OnvoApiError` of a non-2xx ONVO response;
`message` may be a single string or an array of strings. -/
structure OnvoApiError where
  statusCode : Option Nat := none
  apiCode : Option String := none
  message : Option (String ⊕ List String) := none
  error : Option String := none
deriving DecidableEq, Repr

/-- Transport-level outcome of one TiloPay `fetch`: network failure,
non-2xx response (with raw text and optionally JSON-parsed error body), or
2xx response (`none` body = unparsable JSON). -/
inductive TiloWire where
  | netFail (msg : String)
  | errorResp (status : Nat) (statusText : String) (raw : String)
      (parsed : Option TilopayApiError)
  | okResp (body : Option RespBody)
deriving DecidableEq, Repr

/-- Transport-level outcome of one ONVO `fetch`. -/
inductive OnvoWire where
  | netFail (msg : String)
  | errorResp (status : Nat) (statusText : String)
      (parsed : Option OnvoApiError)
  | okResp (body : Option RespBody)
deriving DecidableEq, Repr

deriving instance DecidableEq for Except

/-- JS `String.prototype.startsWith`, modelled as a character-list prefix
test (kernel-reducible, equivalent on decoded strings). -/
def jsStartsWith (s p : String) : Bool := p.data.isPrefixOf s.data

namespace Tilopay

/-- `tilopayConfig` from `src/lib/config.ts`: base URL and secret key
(empty string models a missing `TILOPAY_SECRET_KEY`). -/
structure Config where
  baseUrl : String
  secretKey : String
deriving DecidableEq, Repr

/-- `CreatePaymentIntentParams` of `src/lib/tilopay.ts`. -/
structure CreatePaymentIntentParams where
  amount : ℚ
  currency : String
  description : Option String := none
  success_url : String
  cancel_url : String
deriving DecidableEq, Repr

/-- `CreateSubscriptionParams` of `src/lib/tilopay.ts`. -/
structure CreateSubscriptionParams where
  amount : ℚ
  currency : String
  description : Option String := none
  interval : String
  success_url : String
  cancel_url : String
deriving DecidableEq, Repr

/-- Error thrown by `validateAmount`. -/
def amountError (amount : ℚ) : Err :=
  .tilo ⟨"amount must be a positive integer in centavos (received " ++
    toString amount ++ "). Example: $10.00 → 1000", none, none⟩

/-- `validateAmount`: `!Number.isInteger(amount) || amount <= 0` throws.
`Number.isInteger` on a rational is denominator 1. -/
def validateAmount (amount : ℚ) : Except Err Unit :=
  if ¬ amount.den = 1 ∨ amount ≤ 0 then .error (amountError amount)
  else .ok ()

/-- `validateCurrency`: only "USD" and "CRC" pass. -/
def validateCurrency (currency : String) : Except Err Unit :=
  if currency ≠ "USD" ∧ currency ≠ "CRC" then
    .error (.tilo ⟨"currency must be \"USD\" or \"CRC\" (received \"" ++
      currency ++ "\")", none, none⟩)
  else .ok ()

/-- `validateInterval`: only "month" and "year" pass. -/
def validateInterval (interval : String) : Except Err Unit :=
  if interval ≠ "month" ∧ interval ≠ "year" then
    .error (.tilo ⟨"interval must be \"month\" or \"year\" (received \"" ++
      interval ++ "\")", none, none⟩)
  else .ok ()

/-- `validateUrl`: `!value || !value.startsWith('http')` throws. -/
def validateUrl (value : String) (field : String) : Except Err Unit :=
  if value = "" ∨ ¬ jsStartsWith value "http" then
    .error (.tilo ⟨field ++ " must be a valid URL (received \"" ++ value ++
      "\")", none, none⟩)
  else .ok ()

/-- Outcome of the `request` helper (`src/lib/tilopay.ts` lines 106-155)
for one wire-level result: config check, network failure, non-2xx error
classification, 2xx body parse. -/
def requestOutcome (cfg : Config) (wire : TiloWire) : Except Err RespBody :=
  if cfg.secretKey = "" then
    .error (.tilo ⟨"TILOPAY_SECRET_KEY is not configured", none, none⟩)
  else
    match wire with
    | .netFail m =>
        .error (.tilo ⟨"Network error contacting TiloPay: " ++ m, none, none⟩)
    | .errorResp status statusText raw parsed =>
        let apiError := parsed.getD {}
        let message := (apiError.message.orElse fun _ => apiError.error).getD
          (if raw = "" then statusText else raw)
        .error (.tilo ⟨"TiloPay API error (" ++ toString status ++ "): " ++
          message, some status, apiError.code⟩)
    | .okResp none => .error (.generic "Unexpected end of JSON input")
    | .okResp (some body) => .ok body

/-- Outbound calls performed by one invocation of the `request` helper:
none when the secret-key check throws before `fetch`, otherwise exactly
the one call. -/
def requestCalls (cfg : Config) (path : String) (payload : Payload) :
    List Call :=
  if cfg.secretKey = "" then [] else [⟨path, payload⟩]

/-- Payload of `createPaymentIntent`'s single call (`/payment_intents`);
`...(params.description && \x7b description \x7d)` spreads only a truthy
(non-empty) description. -/
def paymentIntentPayload (params : CreatePaymentIntentParams) : Payload :=
  { amount := some params.amount
    currency := some params.currency
    description := match params.description with
      | some s => if s = "" then none else some s
      | none => none
    success_url := some params.success_url
    cancel_url := some params.cancel_url }

/-- Payload of `createSubscription`'s single call (`/subscriptions`). -/
def subscriptionPayload (params : CreateSubscriptionParams) : Payload :=
  { amount := some params.amount
    currency := some params.currency
    interval := some params.interval
    description := match params.description with
      | some s => if s = "" then none else some s
      | none => none
    success_url := some params.success_url
    cancel_url := some params.cancel_url }

/-- `createPaymentIntent` (`src/lib/tilopay.ts` lines 165-180): validate,
then a single `request` to `/payment_intents`; the parsed 2xx body is
returned as-is (no check that it contains a `url`). -/
def createPaymentIntent (cfg : Config) (params : CreatePaymentIntentParams)
    (wire : TiloWire) : Except Err RespBody × List Call :=
  match validateAmount params.amount with
  | .error e => (.error e, [])
  | .ok _ =>
  match validateCurrency params.currency with
  | .error e => (.error e, [])
  | .ok _ =>
  match validateUrl params.success_url "success_url" with
  | .error e => (.error e, [])
  | .ok _ =>
  match validateUrl params.cancel_url "cancel_url" with
  | .error e => (.error e, [])
  | .ok _ =>
    (requestOutcome cfg wire,
     requestCalls cfg "/payment_intents" (paymentIntentPayload params))

/-- `createSubscription` (`src/lib/tilopay.ts` lines 186-203): validate
(including interval), then a single `request` to `/subscriptions`. -/
def createSubscription (cfg : Config) (params : CreateSubscriptionParams)
    (wire : TiloWire) : Except Err RespBody × List Call :=
  match validateAmount params.amount with
  | .error e => (.error e, [])
  | .ok _ =>
  match validateCurrency params.currency with
  | .error e => (.error e, [])
  | .ok _ =>
  match validateInterval params.interval with
  | .error e => (.error e, [])
  | .ok _ =>
  match validateUrl params.success_url "success_url" with
  | .error e => (.error e, [])
  | .ok _ =>
  match validateUrl params.cancel_url "cancel_url" with
  | .error e => (.error e, [])
  | .ok _ =>
    (requestOutcome cfg wire,
     requestCalls cfg "/subscriptions" (subscriptionPayload params))

end Tilopay

namespace Onvo

/-- `onvoConfig` from `src/lib/config.ts` (empty `secretKey` models a
missing `ONVO_SECRET_KEY`). -/
structure Config where
  baseUrl : String
  secretKey : String
deriving DecidableEq, Repr

/-- `CreatePaymentIntentParams` of `src/lib/onvo.ts`. -/
structure CreatePaymentIntentParams where
  amount : ℚ
  currency : String
  description : Option String := none
  success_url : String
  cancel_url : String
deriving DecidableEq, Repr

/-- `CreateSubscriptionParams` of `src/lib/onvo.ts`. -/
structure CreateSubscriptionParams where
  amount : ℚ
  currency : String
  description : Option String := none
  interval : String
  success_url : String
  cancel_url : String
deriving DecidableEq, Repr

/-- `OnvoRedirectResponse`: the `\x7b url \x7d` value built from the final
checkout session (`url` is `none` when that field was absent from the
session body — the TypeScript cast hides this). -/
structure OnvoRedirectResponse where
  url : Option String
deriving DecidableEq, Repr

/-- Error thrown by `validateAmount` in `src/lib/onvo.ts` lines 110-117. -/
def amountError (amount : ℚ) : Err :=
  .onvo ⟨"amount must be a positive integer in centavos (received " ++
    toString amount ++ "). Example: $10.00 → 1000", none, none⟩

/-- `validateAmount`: `!Number.isInteger(amount) || amount <= 0` throws. -/
def validateAmount (amount : ℚ) : Except Err Unit :=
  if ¬ amount.den = 1 ∨ amount ≤ 0 then .error (amountError amount)
  else .ok ()

/-- `validateCurrency` of `src/lib/onvo.ts`. -/
def validateCurrency (currency : String) : Except Err Unit :=
  if currency ≠ "USD" ∧ currency ≠ "CRC" then
    .error (.onvo ⟨"currency must be \"USD\" or \"CRC\" (received \"" ++
      currency ++ "\")", none, none⟩)
  else .ok ()

/-- `validateInterval` of `src/lib/onvo.ts` lines 127-133. -/
def validateInterval (interval : String) : Except Err Unit :=
  if interval ≠ "month" ∧ interval ≠ "year" then
    .error (.onvo ⟨"interval must be \"month\" or \"year\" (received \"" ++
      interval ++ "\")", none, none⟩)
  else .ok ()

/-- `validateUrl` of `src/lib/onvo.ts`. -/
def validateUrl (value : String) (field : String) : Except Err Unit :=
  if value = "" ∨ ¬ jsStartsWith value "http" then
    .error (.onvo ⟨field ++ " must be a valid URL (received \"" ++ value ++
      "\")", none, none⟩)
  else .ok ()

/-- Outcome of the ONVO `request` helper (`src/lib/onvo.ts` lines 145-192)
for one wire-level result; an array-valued error `message` is joined with
"; ". -/
def requestOutcome (cfg : Config) (wire : OnvoWire) : Except Err RespBody :=
  if cfg.secretKey = "" then
    .error (.onvo ⟨"ONVO_SECRET_KEY is not configured", none, none⟩)
  else
    match wire with
    | .netFail m =>
        .error (.onvo ⟨"Network error contacting ONVO: " ++ m, none, none⟩)
    | .errorResp status statusText parsed =>
        let apiError := parsed.getD {}
        let message := match apiError.message with
          | some (.inr xs) => String.intercalate "; " xs
          | some (.inl s) => s
          | none => apiError.error.getD statusText
        .error (.onvo ⟨"ONVO API error (" ++ toString status ++ "): " ++
          message, some status, apiError.apiCode⟩)
    | .okResp none => .error (.generic "Unexpected end of JSON input")
    | .okResp (some body) => .ok body

/-- Outbound calls performed by one invocation of the `request` helper:
none when the secret-key check throws before `fetch`. -/
def requestCalls (cfg : Config) (path : String) (payload : Payload) :
    List Call :=
  if cfg.secretKey = "" then [] else [⟨path, payload⟩]

/-- Payload of `createCustomer`: an empty object. -/
def customerPayload : Payload := {}

/-- Payload of `createProduct`: `name: description ?? 'Subscription'`. -/
def productPayload (description : Option String) : Payload :=
  { name := some (description.getD "Subscription")
    isActive := some true
    isShippable := some false }

/-- Payload of the inline one-time price call in `createPaymentIntent`. -/
def oneTimePricePayload (productId : Option String) (amount : ℚ)
    (currency : String) : Payload :=
  { productId := productId
    unitAmount := some amount
    currency := some currency
    isActive := some true
    type := some "one_time" }

/-- Payload of `createPrice` (recurring price, interval count fixed 1). -/
def recurringPricePayload (productId : Option String) (amount : ℚ)
    (currency : String) (interval : String) : Payload :=
  { productId := productId
    unitAmount := some amount
    currency := some currency
    isActive := some true
    type := some "recurring"
    recurring := some ⟨interval, 1⟩ }

/-- Payload of `createPaymentIntentRequest`: amount, currency, automatic
capture, truthy description. -/
def paymentIntentPayload (amount : ℚ) (currency : String)
    (description : Option String) : Payload :=
  { amount := some amount
    currency := some currency
    captureMethod := some "automatic"
    description := match description with
      | some s => if s = "" then none else some s
      | none => none }

/-- Payload of `createSubscriptionRequest`: customer reference, deferred
payment, one line item referencing the price. -/
def subscriptionPayload (customerId : Option String)
    (priceId : Option String) : Payload :=
  { customerId := customerId
    paymentBehavior := some "allow_incomplete"
    items := some [⟨priceId, 1⟩] }

/-- Payload of `createCheckoutSession`. -/
def checkoutPayload (lineItems : List LineItem) (redirectUrl : String)
    (cancelUrl : String) : Payload :=
  { lineItems := some lineItems
    redirectUrl := some redirectUrl
    cancelUrl := some cancelUrl }

/-- `createPaymentIntent` (`src/lib/onvo.ts` lines 277-308): validate,
then the strictly sequential chain Product → one-time Price →
PaymentIntent → CheckoutSession; each step awaits the previous one, a
failure returns (throws) immediately with that step's error and no
further call, and no compensating delete is ever issued. -/
def createPaymentIntent (cfg : Config) (params : CreatePaymentIntentParams)
    (oracle : Nat → OnvoWire) :
    Except Err OnvoRedirectResponse × List Call :=
  match validateAmount params.amount with
  | .error e => (.error e, [])
  | .ok _ =>
  match validateCurrency params.currency with
  | .error e => (.error e, [])
  | .ok _ =>
  match validateUrl params.success_url "success_url" with
  | .error e => (.error e, [])
  | .ok _ =>
  match validateUrl params.cancel_url "cancel_url" with
  | .error e => (.error e, [])
  | .ok _ =>
    let c1 := requestCalls cfg "/products" (productPayload params.description)
    match requestOutcome cfg (oracle 0) with
    | .error e => (.error e, c1)
    | .ok product =>
      let c2 := requestCalls cfg "/prices"
        (oneTimePricePayload product.id params.amount params.currency)
      match requestOutcome cfg (oracle 1) with
      | .error e => (.error e, c1 ++ c2)
      | .ok price =>
        let c3 := requestCalls cfg "/payment-intents"
          (paymentIntentPayload params.amount params.currency
            params.description)
        match requestOutcome cfg (oracle 2) with
        | .error e => (.error e, c1 ++ c2 ++ c3)
        | .ok _intent =>
          let c4 := requestCalls cfg "/checkout/sessions/one-time-link"
            (checkoutPayload [⟨price.id, 1⟩] params.success_url
              params.cancel_url)
          match requestOutcome cfg (oracle 3) with
          | .error e => (.error e, c1 ++ c2 ++ c3 ++ c4)
          | .ok session => (.ok ⟨session.url⟩, c1 ++ c2 ++ c3 ++ c4)

/-- `createSubscription` (`src/lib/onvo.ts` lines 320-354): validate
(including interval), then the strictly sequential chain Customer →
Product → recurring Price → Subscription → CheckoutSession. -/
def createSubscription (cfg : Config) (params : CreateSubscriptionParams)
    (oracle : Nat → OnvoWire) :
    Except Err OnvoRedirectResponse × List Call :=
  match validateAmount params.amount with
  | .error e => (.error e, [])
  | .ok _ =>
  match validateCurrency params.currency with
  | .error e => (.error e, [])
  | .ok _ =>
  match validateInterval params.interval with
  | .error e => (.error e, [])
  | .ok _ =>
  match validateUrl params.success_url "success_url" with
  | .error e => (.error e, [])
  | .ok _ =>
  match validateUrl params.cancel_url "cancel_url" with
  | .error e => (.error e, [])
  | .ok _ =>
    let c1 := requestCalls cfg "/customers" customerPayload
    match requestOutcome cfg (oracle 0) with
    | .error e => (.error e, c1)
    | .ok customer =>
      let c2 := requestCalls cfg "/products"
        (productPayload params.description)
      match requestOutcome cfg (oracle 1) with
      | .error e => (.error e, c1 ++ c2)
      | .ok product =>
        let c3 := requestCalls cfg "/prices"
          (recurringPricePayload product.id params.amount params.currency
            params.interval)
        match requestOutcome cfg (oracle 2) with
        | .error e => (.error e, c1 ++ c2 ++ c3)
        | .ok price =>
          let c4 := requestCalls cfg "/subscriptions"
            (subscriptionPayload customer.id price.id)
          match requestOutcome cfg (oracle 3) with
          | .error e => (.error e, c1 ++ c2 ++ c3 ++ c4)
          | .ok _subscription =>
            let c5 := requestCalls cfg "/checkout/sessions/one-time-link"
              (checkoutPayload [⟨price.id, 1⟩] params.success_url
                params.cancel_url)
            match requestOutcome cfg (oracle 4) with
            | .error e => (.error e, c1 ++ c2 ++ c3 ++ c4 ++ c5)
            | .ok session => (.ok ⟨session.url⟩, c1 ++ c2 ++ c3 ++ c4 ++ c5)

end Onvo

/-- A JavaScript value as far as `validateBody` inspects one: a number, a
string, a boolean, or anything else / absent (`undef`). -/
inductive JsVal where
  | num (q : ℚ)
  | str (s : String)
  | boolean (b : Bool)
  | undef
deriving DecidableEq, Repr

/-- HTTP response produced by a route handler: 200 with the result URL, or
an error status with a message. -/
inductive RouteResponse where
  | ok (url : Option String)
  | err (status : Nat) (error : String)
deriving DecidableEq, Repr

/-- HTTP status of a route response. -/
def RouteResponse.status : RouteResponse → Nat
  | .ok _ => 200
  | .err s _ => s

/-- `Math.round`: round half toward positive infinity. -/
def jsRound (q : ℚ) : ℤ := ⌊q + 1 / 2⌋

/-- Request body of `POST /api/generate` after JSON parsing; a `none`
field was absent (`undefined` after destructuring).  There is no
`interval` field: the route never reads one. -/
structure GenerateBody where
  amount : Option ℚ := none
  currency : Option String := none
  type : Option String := none
  provider : Option String := none
  description : Option String := none
  success_url : Option String := none
  cancel_url : Option String := none
deriving DecidableEq, Repr

/-- The fixed 400 message of the generate route's required-field check. -/
def missingFieldsMsg : String :=
  "Missing required fields: amount, currency, type, provider, success_url, cancel_url"

/-- Maps a TiloPay adapter outcome to the generate route's response:
success → 200 with the body's `url` field, any thrown error → 500 with its
message (`src/app/api/generate/route.ts` lines 73-78). -/
def tiloToGenerateResponse : Except Err RespBody → RouteResponse
  | .ok b => .ok b.url
  | .error e => .err 500 (errMessage e)

/-- Maps an ONVO adapter outcome to the generate route's response. -/
def onvoToGenerateResponse : Except Err Onvo.OnvoRedirectResponse → RouteResponse
  | .ok r => .ok r.url
  | .error e => .err 500 (errMessage e)

/-- `POST` of `src/app/api/generate/route.ts`: destructure the body, 400
on any falsy required field (`!amount || !currency || !type || !provider
|| !success_url || !cancel_url`), then dispatch — `provider === 'tilopay'`
selects TiloPay, ANY other provider value falls through to ONVO; `type ===
'recurring'` selects the subscription flow with a hardcoded `interval:
'month'`, any other type the one-time flow.  The amount is forwarded
unchanged.  Every adapter error is caught and returned as a 500. -/
def generatePOST (cfgT : Tilopay.Config) (cfgO : Onvo.Config)
    (body : GenerateBody) (wireT : TiloWire) (oracleO : Nat → OnvoWire) :
    RouteResponse × List Call :=
  match body.amount, body.currency, body.type, body.provider,
      body.success_url, body.cancel_url with
  | some amount, some currency, some type, some provider,
      some success_url, some cancel_url =>
    if amount = 0 ∨ currency = "" ∨ type = "" ∨ provider = "" ∨
        success_url = "" ∨ cancel_url = "" then
      (.err 400 missingFieldsMsg, [])
    else if provider = "tilopay" then
      if type = "recurring" then
        let r := Tilopay.createSubscription cfgT
          ⟨amount, currency, body.description, "month", success_url,
            cancel_url⟩ wireT
        (tiloToGenerateResponse r.1, r.2)
      else
        let r := Tilopay.createPaymentIntent cfgT
          ⟨amount, currency, body.description, success_url, cancel_url⟩
          wireT
        (tiloToGenerateResponse r.1, r.2)
    else
      if type = "recurring" then
        let r := Onvo.createSubscription cfgO
          ⟨amount, currency, body.description, "month", success_url,
            cancel_url⟩ oracleO
        (onvoToGenerateResponse r.1, r.2)
      else
        let r := Onvo.createPaymentIntent cfgO
          ⟨amount, currency, body.description, success_url, cancel_url⟩
          oracleO
        (onvoToGenerateResponse r.1, r.2)
  | _, _, _, _, _, _ => (.err 400 missingFieldsMsg, [])

/-- `appConfig` subset used by the create-link route. -/
structure AppConfig where
  baseUrl : String
deriving DecidableEq, Repr

/-- Raw JSON body of `POST /api/tilopay/create-link` (assumed to be an
object; the route's array/null pre-check is outside the claims). -/
structure CreateLinkRaw where
  amount : JsVal := .undef
  currency : JsVal := .undef
  isRecurring : JsVal := .undef
  description : JsVal := .undef
deriving DecidableEq, Repr

/-- `CreateLinkRequestBody` after validation. -/
structure CreateLinkRequestBody where
  amount : ℚ
  currency : String
  description : Option String
  isRecurring : Bool
deriving DecidableEq, Repr

/-- `validateBody` of `src/app/api/tilopay/create-link/route.ts` lines
24-53: amount must be a (finite) number > 0, currency "USD"/"CRC",
isRecurring a boolean, description absent or a string (trimmed;
empty-after-trim becomes absent). -/
def validateBody (raw : CreateLinkRaw) : Except String CreateLinkRequestBody :=
  match raw.amount with
  | .num a =>
    if a ≤ 0 then .error "amount must be a positive number"
    else
      match raw.currency with
      | .str c =>
        if c ≠ "USD" ∧ c ≠ "CRC" then
          .error "currency must be \"USD\" or \"CRC\""
        else
          match raw.isRecurring with
          | .boolean b =>
            match raw.description with
            | .undef => .ok ⟨a, c, none, b⟩
            | .str s =>
                .ok ⟨a, c, if s.trim = "" then none else some s.trim, b⟩
            | _ => .error "description must be a string"
          | _ => .error "isRecurring must be a boolean"
      | _ => .error "currency must be \"USD\" or \"CRC\""
  | _ => .error "amount must be a positive number"

/-- Error-to-status mapping of the create-link route
(`err instanceof TilopayError && err.statusCode ? 502 : 500`): a
`TilopayError` carrying a truthy (nonzero) HTTP status → 502, anything
else → 500. -/
def createLinkStatus (e : Err) : Nat :=
  match e with
  | .tilo te => if te.statusCode.getD 0 ≠ 0 then 502 else 500
  | _ => 500

/-- `POST` of `src/app/api/tilopay/create-link/route.ts`: validate the
body (failure → 400 with the validation message), convert the major-unit
amount with `Math.round(amount * 100)`, build redirect URLs from the
configured base URL, invoke the TiloPay client, and map errors through
`createLinkStatus`. -/
def createLinkPOST (cfgT : Tilopay.Config) (app : AppConfig)
    (raw : CreateLinkRaw) (wire : TiloWire) : RouteResponse × List Call :=
  match validateBody raw with
  | .error msg => (.err 400 msg, [])
  | .ok body =>
    let amountInCents : ℚ := ((jsRound (body.amount * 100) : ℤ) : ℚ)
    let success_url := app.baseUrl ++ "/success?provider=tilopay"
    let cancel_url := app.baseUrl ++ "/cancel?provider=tilopay"
    let r :=
      if body.isRecurring then
        Tilopay.createSubscription cfgT
          ⟨amountInCents, body.currency, body.description, "month",
            success_url, cancel_url⟩ wire
      else
        Tilopay.createPaymentIntent cfgT
          ⟨amountInCents, body.currency, body.description, success_url,
            cancel_url⟩ wire
    (match r.1 with
     | .ok result => .ok result.url
     | .error e => .err (createLinkStatus e) (errMessage e), r.2)

/-! Concrete fixtures used by counterexamples and witnesses. -/

/-- A TiloPay configuration with a secret key present. -/
def demoCfgT : Tilopay.Config := ⟨"https://api.tilopay.com/v1", "sk_tilo"⟩

/-- An ONVO configuration with a secret key present. -/
def demoCfgO : Onvo.Config := ⟨"https://api.onvopay.com/v1", "sk_onvo"⟩

/-- App configuration with an HTTP base URL. -/
def demoApp : AppConfig := ⟨"http://localhost:3000"⟩

/-- A 2xx TiloPay response whose body carries the redirect URL. -/
def demoWireOk : TiloWire :=
  .okResp (some ⟨none, some "https://pay.example/abc"⟩)

/-- An ONVO oracle answering every call with a 2xx body carrying an id
and a URL. -/
def demoOracleOk : Nat → OnvoWire :=
  fun _ => .okResp (some ⟨some "res_1", some "https://pay.example/abc"⟩)

/-! Helper lemmas about the validators. -/

theorem Tilopay.tiloValidateAmount_ok (a : ℚ) (h1 : a.den = 1) (h2 : 0 < a) :
    Tilopay.validateAmount a = .ok () := by
  unfold Tilopay.validateAmount
  rw [if_neg]
  push_neg
  exact ⟨h1, h2⟩

theorem Onvo.onvoValidateAmount_ok (a : ℚ) (h1 : a.den = 1) (h2 : 0 < a) :
    Onvo.validateAmount a = .ok () := by
  unfold Onvo.validateAmount
  rw [if_neg]
  push_neg
  exact ⟨h1, h2⟩

theorem Tilopay.tiloValidateCurrency_ok (c : String)
    (h : c = "USD" ∨ c = "CRC") : Tilopay.validateCurrency c = .ok () := by
  unfold Tilopay.validateCurrency
  rcases h with h | h <;> simp [h]

theorem Onvo.onvoValidateCurrency_ok (c : String)
    (h : c = "USD" ∨ c = "CRC") : Onvo.validateCurrency c = .ok () := by
  unfold Onvo.validateCurrency
  rcases h with h | h <;> simp [h]

theorem Tilopay.tiloValidateInterval_ok (i : String)
    (h : i = "month" ∨ i = "year") : Tilopay.validateInterval i = .ok () := by
  unfold Tilopay.validateInterval
  rcases h with h | h <;> simp [h]

theorem Onvo.onvoValidateInterval_ok (i : String)
    (h : i = "month" ∨ i = "year") : Onvo.validateInterval i = .ok () := by
  unfold Onvo.validateInterval
  rcases h with h | h <;> simp [h]

theorem Tilopay.tiloValidateUrl_ok (v f : String) (h1 : v ≠ "")
    (h2 : jsStartsWith v "http" = true) : Tilopay.validateUrl v f = .ok () := by
  unfold Tilopay.validateUrl
  rw [if_neg]
  push_neg
  exact ⟨h1, h2⟩

theorem Onvo.onvoValidateUrl_ok (v f : String) (h1 : v ≠ "")
    (h2 : jsStartsWith v "http" = true) : Onvo.validateUrl v f = .ok () := by
  unfold Onvo.validateUrl
  rw [if_neg]
  push_neg
  exact ⟨h1, h2⟩

/-- Claim C10: any falsy required field of the generate route — an absent
field, a zero amount, or an empty string — produces the single fixed 400
"Missing required fields" response with no adapter or network call; a
zero amount is reported via this missing-fields message, not an
amount-specific one. -/
theorem generate_missing_fields_single_400 (cfgT : Tilopay.Config)
    (cfgO : Onvo.Config) (body : GenerateBody) (wireT : TiloWire)
    (oracleO : Nat → OnvoWire)
    (h : body.amount = none ∨ body.amount = some 0 ∨
         body.currency = none ∨ body.currency = some "" ∨
         body.type = none ∨ body.type = some "" ∨
         body.provider = none ∨ body.provider = some "" ∨
         body.success_url = none ∨ body.success_url = some "" ∨
         body.cancel_url = none ∨ body.cancel_url = some "") :
    generatePOST cfgT cfgO body wireT oracleO
      = (.err 400 missingFieldsMsg, []) := by
  rcases body with ⟨a, c, t, p, d, su, cu⟩
  rcases a with _ | a <;> rcases c with _ | c <;> rcases t with _ | t <;>
    rcases p with _ | p <;> rcases su with _ | su <;>
    rcases cu with _ | cu <;> simp_all [generatePOST]

/-- Witness for C10: a request with amount 0 and everything else present
and valid still gets the fixed missing-fields 400 and makes no call. -/
theorem generate_missing_fields_single_400_witness :
    generatePOST demoCfgT demoCfgO
      ⟨some 0, some "USD", some "one_time", some "onvo", none,
        some "https://s.example/ok", some "https://s.example/no"⟩
      demoWireOk demoOracleOk = (.err 400 missingFieldsMsg, []) :=
  generate_missing_fields_single_400 _ _ _ _ _ (Or.inr (Or.inl rfl))

/-- Claim C9: any call to either adapter's `createPaymentIntent` or
`createSubscription` whose amount is not a positive integer (a fractional
value such as 10.5, zero, or a negative value) returns the amount error
before any outbound request — the trace of attempted calls is empty. -/
theorem adapters_reject_non_positive_integer_amount
    (cfgT : Tilopay.Config) (cfgO : Onvo.Config) (a : ℚ)
    (currency : String) (description : Option String) (interval : String)
    (success_url cancel_url : String) (wire : TiloWire)
    (oracle : Nat → OnvoWire)
    (ha : ¬ a.den = 1 ∨ a ≤ 0) :
    Tilopay.createPaymentIntent cfgT
        ⟨a, currency, description, success_url, cancel_url⟩ wire
      = (.error (Tilopay.amountError a), []) ∧
    Tilopay.createSubscription cfgT
        ⟨a, currency, description, interval, success_url, cancel_url⟩ wire
      = (.error (Tilopay.amountError a), []) ∧
    Onvo.createPaymentIntent cfgO
        ⟨a, currency, description, success_url, cancel_url⟩ oracle
      = (.error (Onvo.amountError a), []) ∧
    Onvo.createSubscription cfgO
        ⟨a, currency, description, interval, success_url, cancel_url⟩ oracle
      = (.error (Onvo.amountError a), []) := by
  have h1 : Tilopay.validateAmount a = .error (Tilopay.amountError a) := by
    unfold Tilopay.validateAmount
    exact if_pos ha
  have h2 : Onvo.validateAmount a = .error (Onvo.amountError a) := by
    unfold Onvo.validateAmount
    exact if_pos ha
  refine ⟨?_, ?_, ?_, ?_⟩ <;>
    simp only [Tilopay.createPaymentIntent, Tilopay.createSubscription,
      Onvo.createPaymentIntent, Onvo.createSubscription, h1, h2]

/-- Witness for C9: the fractional centavo amount 10.5 is rejected by all
four operations with no call attempted. -/
theorem adapters_reject_non_positive_integer_amount_witness :
    (Tilopay.createPaymentIntent demoCfgT
        ⟨mkRat 21 2, "USD", none, "https://s.example/ok",
          "https://s.example/no"⟩ demoWireOk
      = (.error (Tilopay.amountError (mkRat 21 2)), [])) ∧
    (Onvo.createSubscription demoCfgO
        ⟨mkRat 21 2, "USD", none, "month", "https://s.example/ok",
          "https://s.example/no"⟩ demoOracleOk
      = (.error (Onvo.amountError (mkRat 21 2)), [])) := by
  have h := adapters_reject_non_positive_integer_amount demoCfgT demoCfgO
    (mkRat 21 2) "USD" none "month" "https://s.example/ok"
    "https://s.example/no" demoWireOk demoOracleOk (by decide)
  exact ⟨h.1, h.2.2.2⟩

/-- Claim C8: with the provider's secret credential missing (empty), every
adapter operation on otherwise-valid input returns the configuration
error and attempts zero network calls — the credential check sits in the
request helper before any `fetch`. -/
theorem missing_credential_config_error_zero_calls
    (cfgT : Tilopay.Config) (cfgO : Onvo.Config) (a : ℚ)
    (c i su cu : String) (d : Option String) (wire : TiloWire)
    (oracle : Nat → OnvoWire)
    (hkT : cfgT.secretKey = "") (hkO : cfgO.secretKey = "")
    (hden : a.den = 1) (hpos : 0 < a) (hc : c = "USD" ∨ c = "CRC")
    (hi : i = "month" ∨ i = "year")
    (hsu1 : su ≠ "") (hsu2 : jsStartsWith su "http" = true)
    (hcu1 : cu ≠ "") (hcu2 : jsStartsWith cu "http" = true) :
    Tilopay.createPaymentIntent cfgT ⟨a, c, d, su, cu⟩ wire
      = (.error (.tilo ⟨"TILOPAY_SECRET_KEY is not configured", none, none⟩),
         []) ∧
    Tilopay.createSubscription cfgT ⟨a, c, d, i, su, cu⟩ wire
      = (.error (.tilo ⟨"TILOPAY_SECRET_KEY is not configured", none, none⟩),
         []) ∧
    Onvo.createPaymentIntent cfgO ⟨a, c, d, su, cu⟩ oracle
      = (.error (.onvo ⟨"ONVO_SECRET_KEY is not configured", none, none⟩),
         []) ∧
    Onvo.createSubscription cfgO ⟨a, c, d, i, su, cu⟩ oracle
      = (.error (.onvo ⟨"ONVO_SECRET_KEY is not configured", none, none⟩),
         []) := by
  have vtA := Tilopay.tiloValidateAmount_ok a hden hpos
  have voA := Onvo.onvoValidateAmount_ok a hden hpos
  have vtC := Tilopay.tiloValidateCurrency_ok c hc
  have voC := Onvo.onvoValidateCurrency_ok c hc
  have vtI := Tilopay.tiloValidateInterval_ok i hi
  have voI := Onvo.onvoValidateInterval_ok i hi
  have vtS := Tilopay.tiloValidateUrl_ok su "success_url" hsu1 hsu2
  have voS := Onvo.onvoValidateUrl_ok su "success_url" hsu1 hsu2
  have vtX := Tilopay.tiloValidateUrl_ok cu "cancel_url" hcu1 hcu2
  have voX := Onvo.onvoValidateUrl_ok cu "cancel_url" hcu1 hcu2
  refine ⟨?_, ?_, ?_, ?_⟩ <;>
    simp only [Tilopay.createPaymentIntent, Tilopay.createSubscription,
      Onvo.createPaymentIntent, Onvo.createSubscription, vtA, voA, vtC,
      voC, vtI, voI, vtS, voS, vtX, voX, Tilopay.requestOutcome,
      Onvo.requestOutcome, Tilopay.requestCalls, Onvo.requestCalls, hkT,
      hkO, if_pos]

/-- Witness for C8: both adapters with an empty secret key reject a fully
valid request with the configuration error and an empty call trace. -/
theorem missing_credential_config_error_zero_calls_witness :
    Tilopay.createPaymentIntent ⟨"https://api.tilopay.com/v1", ""⟩
        ⟨1000, "USD", none, "https://s.example/ok", "https://s.example/no"⟩
        demoWireOk
      = (.error (.tilo ⟨"TILOPAY_SECRET_KEY is not configured", none, none⟩),
         []) ∧
    Onvo.createSubscription ⟨"https://api.onvopay.com/v1", ""⟩
        ⟨1000, "USD", none, "month", "https://s.example/ok",
          "https://s.example/no"⟩ demoOracleOk
      = (.error (.onvo ⟨"ONVO_SECRET_KEY is not configured", none, none⟩),
         []) := by
  have h := missing_credential_config_error_zero_calls
    ⟨"https://api.tilopay.com/v1", ""⟩ ⟨"https://api.onvopay.com/v1", ""⟩
    1000 "USD" "month" "https://s.example/ok" "https://s.example/no" none
    demoWireOk demoOracleOk rfl rfl (by decide) (by decide) (Or.inl rfl)
    (Or.inl rfl) (by decide) (by decide) (by decide) (by decide)
  exact ⟨h.1, h.2.2.2⟩

theorem Tilopay.requestCalls_length (cfg : Tilopay.Config) (path : String)
    (payload : Payload) :
    (Tilopay.requestCalls cfg path payload).length ≤ 1 := by
  unfold Tilopay.requestCalls
  split <;> simp

/-- Counterexample to claim C7: a 2xx TiloPay response whose body lacks
the redirect-URL field is passed through as a success result with no
`url`, not converted into a ProviderApiError — the client never checks
for the field. -/
theorem simple_adapter_missing_url_cex :
    (Tilopay.createPaymentIntent demoCfgT
        ⟨1000, "USD", none, "https://s.example/ok", "https://s.example/no"⟩
        (.okResp (some ⟨none, none⟩))).1
      = .ok ⟨none, none⟩ := by decide

/-- Claim C7 as amended: each Simple-adapter operation attempts at most
one outbound call (exactly one once validation passes and a credential is
present), and a 2xx response body is returned exactly as parsed — whether
or not it contains a `url` field. -/
theorem simple_adapter_single_call (cfg : Tilopay.Config)
    (p : Tilopay.CreatePaymentIntentParams)
    (s : Tilopay.CreateSubscriptionParams) (wire : TiloWire) :
    (Tilopay.createPaymentIntent cfg p wire).2.length ≤ 1 ∧
    (Tilopay.createSubscription cfg s wire).2.length ≤ 1 ∧
    (∀ b : RespBody,
      Tilopay.validateAmount p.amount = .ok () →
      Tilopay.validateCurrency p.currency = .ok () →
      Tilopay.validateUrl p.success_url "success_url" = .ok () →
      Tilopay.validateUrl p.cancel_url "cancel_url" = .ok () →
      cfg.secretKey ≠ "" →
      Tilopay.createPaymentIntent cfg p (.okResp (some b))
        = (.ok b, [⟨"/payment_intents", Tilopay.paymentIntentPayload p⟩])) ∧
    (∀ b : RespBody,
      Tilopay.validateAmount s.amount = .ok () →
      Tilopay.validateCurrency s.currency = .ok () →
      Tilopay.validateInterval s.interval = .ok () →
      Tilopay.validateUrl s.success_url "success_url" = .ok () →
      Tilopay.validateUrl s.cancel_url "cancel_url" = .ok () →
      cfg.secretKey ≠ "" →
      Tilopay.createSubscription cfg s (.okResp (some b))
        = (.ok b, [⟨"/subscriptions", Tilopay.subscriptionPayload s⟩])) := by
  refine ⟨?_, ?_, ?_, ?_⟩
  · unfold Tilopay.createPaymentIntent
    repeat' split
    all_goals simp [Tilopay.requestCalls_length]
  · unfold Tilopay.createSubscription
    repeat' split
    all_goals simp [Tilopay.requestCalls_length]
  · intro b h1 h2 h3 h4 hk
    simp only [Tilopay.createPaymentIntent, h1, h2, h3, h4,
      Tilopay.requestOutcome, Tilopay.requestCalls, if_neg hk]
  · intro b h1 h2 h3 h4 h5 hk
    simp only [Tilopay.createSubscription, h1, h2, h3, h4, h5,
      Tilopay.requestOutcome, Tilopay.requestCalls, if_neg hk]

/-- Witness for the amended C7: a concrete valid one-time request with a
url-less 2xx body yields exactly one call and the body back verbatim. -/
theorem simple_adapter_single_call_witness :
    Tilopay.createPaymentIntent demoCfgT
        ⟨1000, "USD", none, "https://s.example/ok", "https://s.example/no"⟩
        (.okResp (some ⟨none, some "https://pay.example/abc"⟩))
      = (.ok ⟨none, some "https://pay.example/abc"⟩,
         [⟨"/payment_intents", Tilopay.paymentIntentPayload
            ⟨1000, "USD", none, "https://s.example/ok",
              "https://s.example/no"⟩⟩]) :=
  (simple_adapter_single_call demoCfgT
      ⟨1000, "USD", none, "https://s.example/ok", "https://s.example/no"⟩
      ⟨1000, "USD", none, "month", "https://s.example/ok",
        "https://s.example/no"⟩ demoWireOk).2.2.1
    ⟨none, some "https://pay.example/abc"⟩ (by decide) (by decide)
    (by decide) (by decide) (by decide)

/-- Claim C2: a valid one-time request handled by the Multi-Step (ONVO)
adapter makes exactly 4 dependent calls in the fixed order Product →
Price → PaymentIntent → CheckoutSession — the Price call consumes the
Product's id and the CheckoutSession call the Price's id — and when the
k-th call fails, the trace stops at exactly k calls with that call's
error returned unchanged and no compensating delete issued. -/
theorem multi_step_one_time_sequence (cfg : Onvo.Config)
    (p : Onvo.CreatePaymentIntentParams) (oracle : Nat → OnvoWire)
    (h1 : Onvo.validateAmount p.amount = .ok ())
    (h2 : Onvo.validateCurrency p.currency = .ok ())
    (h3 : Onvo.validateUrl p.success_url "success_url" = .ok ())
    (h4 : Onvo.validateUrl p.cancel_url "cancel_url" = .ok ())
    (hk : cfg.secretKey ≠ "") :
    (∀ product price intent session : RespBody,
      Onvo.requestOutcome cfg (oracle 0) = .ok product →
      Onvo.requestOutcome cfg (oracle 1) = .ok price →
      Onvo.requestOutcome cfg (oracle 2) = .ok intent →
      Onvo.requestOutcome cfg (oracle 3) = .ok session →
      Onvo.createPaymentIntent cfg p oracle
        = (.ok ⟨session.url⟩,
           [⟨"/products", Onvo.productPayload p.description⟩,
            ⟨"/prices",
              Onvo.oneTimePricePayload product.id p.amount p.currency⟩,
            ⟨"/payment-intents",
              Onvo.paymentIntentPayload p.amount p.currency p.description⟩,
            ⟨"/checkout/sessions/one-time-link",
              Onvo.checkoutPayload [⟨price.id, 1⟩] p.success_url
                p.cancel_url⟩])) ∧
    (∀ e : Err,
      Onvo.requestOutcome cfg (oracle 0) = .error e →
      Onvo.createPaymentIntent cfg p oracle
        = (.error e, [⟨"/products", Onvo.productPayload p.description⟩])) ∧
    (∀ (product : RespBody) (e : Err),
      Onvo.requestOutcome cfg (oracle 0) = .ok product →
      Onvo.requestOutcome cfg (oracle 1) = .error e →
      Onvo.createPaymentIntent cfg p oracle
        = (.error e,
           [⟨"/products", Onvo.productPayload p.description⟩,
            ⟨"/prices",
              Onvo.oneTimePricePayload product.id p.amount p.currency⟩])) ∧
    (∀ (product price : RespBody) (e : Err),
      Onvo.requestOutcome cfg (oracle 0) = .ok product →
      Onvo.requestOutcome cfg (oracle 1) = .ok price →
      Onvo.requestOutcome cfg (oracle 2) = .error e →
      Onvo.createPaymentIntent cfg p oracle
        = (.error e,
           [⟨"/products", Onvo.productPayload p.description⟩,
            ⟨"/prices",
              Onvo.oneTimePricePayload product.id p.amount p.currency⟩,
            ⟨"/payment-intents",
              Onvo.paymentIntentPayload p.amount p.currency
                p.description⟩])) ∧
    (∀ (product price intent : RespBody) (e : Err),
      Onvo.requestOutcome cfg (oracle 0) = .ok product →
      Onvo.requestOutcome cfg (oracle 1) = .ok price →
      Onvo.requestOutcome cfg (oracle 2) = .ok intent →
      Onvo.requestOutcome cfg (oracle 3) = .error e →
      Onvo.createPaymentIntent cfg p oracle
        = (.error e,
           [⟨"/products", Onvo.productPayload p.description⟩,
            ⟨"/prices",
              Onvo.oneTimePricePayload product.id p.amount p.currency⟩,
            ⟨"/payment-intents",
              Onvo.paymentIntentPayload p.amount p.currency p.description⟩,
            ⟨"/checkout/sessions/one-time-link",
              Onvo.checkoutPayload [⟨price.id, 1⟩] p.success_url
                p.cancel_url⟩])) := by
  refine ⟨?_, ?_, ?_, ?_, ?_⟩
  · intro product price intent session o0 o1 o2 o3
    simp [Onvo.createPaymentIntent, h1, h2, h3, h4, o0, o1, o2, o3,
      Onvo.requestCalls, if_neg hk]
  · intro e o0
    simp [Onvo.createPaymentIntent, h1, h2, h3, h4, o0,
      Onvo.requestCalls, if_neg hk]
  · intro product e o0 o1
    simp [Onvo.createPaymentIntent, h1, h2, h3, h4, o0, o1,
      Onvo.requestCalls, if_neg hk]
  · intro product price e o0 o1 o2
    simp [Onvo.createPaymentIntent, h1, h2, h3, h4, o0, o1, o2,
      Onvo.requestCalls, if_neg hk]
  · intro product price intent e o0 o1 o2 o3
    simp [Onvo.createPaymentIntent, h1, h2, h3, h4, o0, o1, o2, o3,
      Onvo.requestCalls, if_neg hk]

/-- Witness for C2: a concrete valid one-time request against an
all-successful oracle produces exactly the 4-call chain and the checkout
session's URL. -/
theorem multi_step_one_time_sequence_witness :
    Onvo.createPaymentIntent demoCfgO
        ⟨1000, "USD", none, "https://s.example/ok", "https://s.example/no"⟩
        demoOracleOk
      = (.ok ⟨some "https://pay.example/abc"⟩,
         [⟨"/products", Onvo.productPayload none⟩,
          ⟨"/prices",
            Onvo.oneTimePricePayload (some "res_1") 1000 "USD"⟩,
          ⟨"/payment-intents",
            Onvo.paymentIntentPayload 1000 "USD" none⟩,
          ⟨"/checkout/sessions/one-time-link",
            Onvo.checkoutPayload [⟨some "res_1", 1⟩]
              "https://s.example/ok" "https://s.example/no"⟩]) :=
  (multi_step_one_time_sequence demoCfgO
      ⟨1000, "USD", none, "https://s.example/ok", "https://s.example/no"⟩
      demoOracleOk (by decide) (by decide) (by decide) (by decide)
      (by decide)).1
    ⟨some "res_1", some "https://pay.example/abc"⟩
    ⟨some "res_1", some "https://pay.example/abc"⟩
    ⟨some "res_1", some "https://pay.example/abc"⟩
    ⟨some "res_1", some "https://pay.example/abc"⟩
    (by decide) (by decide) (by decide) (by decide)

/-- Concrete recurring request used by the C3 counterexample and
witness: ₡5.50 → 550 céntimos, monthly. -/
def demoSubParams : Onvo.CreateSubscriptionParams :=
  ⟨550, "CRC", none, "month", "https://s.example/ok",
    "https://s.example/no"⟩

/-- Counterexample to claim C3: in the recurring (Scenario C) run the
minor-unit amount 550 appears in the 3rd call's payload only — the 4th
call (`/subscriptions`) carries no amount field at all, only references;
the claim's "carried in both the 3rd and 4th call's payload" is false. -/
theorem multi_step_subscription_amount_cex :
    ((Onvo.createSubscription demoCfgO demoSubParams demoOracleOk).2.map
        (fun call => (call.payload.amount, call.payload.unitAmount)))
      = [(none, none), (none, none), (none, some 550), (none, none),
         (none, none)] := by decide

/-- Claim C3 as amended: a valid recurring request handled by the
Multi-Step adapter makes exactly 5 sequential calls in the order Customer
→ Product → Price → Subscription → CheckoutSession; the recurring Price
carries the minor-unit amount, the given interval and an interval count
fixed at 1; the minor-unit amount is carried in the 3rd call's payload
only (the 4th call references the Customer and Price by identifier and
carries no amount); and the final call's response URL becomes the
result. -/
theorem multi_step_subscription_sequence (cfg : Onvo.Config)
    (s : Onvo.CreateSubscriptionParams) (oracle : Nat → OnvoWire)
    (h1 : Onvo.validateAmount s.amount = .ok ())
    (h2 : Onvo.validateCurrency s.currency = .ok ())
    (h3 : Onvo.validateInterval s.interval = .ok ())
    (h4 : Onvo.validateUrl s.success_url "success_url" = .ok ())
    (h5 : Onvo.validateUrl s.cancel_url "cancel_url" = .ok ())
    (hk : cfg.secretKey ≠ "") :
    ∀ customer product price subscription session : RespBody,
      Onvo.requestOutcome cfg (oracle 0) = .ok customer →
      Onvo.requestOutcome cfg (oracle 1) = .ok product →
      Onvo.requestOutcome cfg (oracle 2) = .ok price →
      Onvo.requestOutcome cfg (oracle 3) = .ok subscription →
      Onvo.requestOutcome cfg (oracle 4) = .ok session →
      Onvo.createSubscription cfg s oracle
        = (.ok ⟨session.url⟩,
           [⟨"/customers", Onvo.customerPayload⟩,
            ⟨"/products", Onvo.productPayload s.description⟩,
            ⟨"/prices",
              Onvo.recurringPricePayload product.id s.amount s.currency
                s.interval⟩,
            ⟨"/subscriptions",
              Onvo.subscriptionPayload customer.id price.id⟩,
            ⟨"/checkout/sessions/one-time-link",
              Onvo.checkoutPayload [⟨price.id, 1⟩] s.success_url
                s.cancel_url⟩])
      ∧ (Onvo.recurringPricePayload product.id s.amount s.currency
          s.interval).unitAmount = some s.amount
      ∧ (Onvo.recurringPricePayload product.id s.amount s.currency
          s.interval).recurring = some ⟨s.interval, 1⟩
      ∧ (Onvo.subscriptionPayload customer.id price.id).amount = none
      ∧ (Onvo.subscriptionPayload customer.id price.id).unitAmount
          = none := by
  intro customer product price subscription session o0 o1 o2 o3 o4
  refine ⟨?_, rfl, rfl, rfl, rfl⟩
  simp [Onvo.createSubscription, h1, h2, h3, h4, h5, o0, o1, o2, o3, o4,
    Onvo.requestCalls, if_neg hk]

/-- Witness for the amended C3: the Scenario C request (550 céntimos CRC,
monthly) against an all-successful oracle yields the 5-call chain and
the final URL. -/
theorem multi_step_subscription_sequence_witness :
    Onvo.createSubscription demoCfgO demoSubParams demoOracleOk
      = (.ok ⟨some "https://pay.example/abc"⟩,
         [⟨"/customers", Onvo.customerPayload⟩,
          ⟨"/products", Onvo.productPayload none⟩,
          ⟨"/prices",
            Onvo.recurringPricePayload (some "res_1") 550 "CRC" "month"⟩,
          ⟨"/subscriptions",
            Onvo.subscriptionPayload (some "res_1") (some "res_1")⟩,
          ⟨"/checkout/sessions/one-time-link",
            Onvo.checkoutPayload [⟨some "res_1", 1⟩]
              "https://s.example/ok" "https://s.example/no"⟩]) :=
  ((multi_step_subscription_sequence demoCfgO demoSubParams demoOracleOk
      (by decide) (by decide) (by decide) (by decide) (by decide)
      (by decide))
    ⟨some "res_1", some "https://pay.example/abc"⟩
    ⟨some "res_1", some "https://pay.example/abc"⟩
    ⟨some "res_1", some "https://pay.example/abc"⟩
    ⟨some "res_1", some "https://pay.example/abc"⟩
    ⟨some "res_1", some "https://pay.example/abc"⟩
    (by decide) (by decide) (by decide) (by decide) (by decide)).1

/-- A fully valid generate-route body (amounts already in minor units, as
the route's caller sends them). -/
def demoGenBody : GenerateBody :=
  ⟨some 1000, some "USD", some "one_time", some "tilopay", none,
    some "https://s.example/ok", some "https://s.example/no"⟩

/-- Counterexample to claim C5: a request whose provider is the unknown
string "stripe" is not rejected with a ValidationError — the generate
route silently dispatches it to the ONVO adapter, which performs its
4-call one-time flow and returns 200. -/
theorem unknown_provider_dispatches_onvo_cex :
    (generatePOST demoCfgT demoCfgO
        { demoGenBody with provider := some "stripe" } demoWireOk
        demoOracleOk).1
      = .ok (some "https://pay.example/abc")
    ∧ (generatePOST demoCfgT demoCfgO
        { demoGenBody with provider := some "stripe" } demoWireOk
        demoOracleOk).2.length = 4 := by decide

/-- Claim C5 as amended: the generate route only ever compares the
provider against "tilopay"; any present non-empty provider other than
"tilopay" — known or not — behaves exactly like "onvo" (silent
fallthrough to the ONVO adapter), while an absent or empty provider is
caught by the falsy-field check as the fixed 400 missing-fields response
with no adapter call. -/
theorem unknown_provider_fallthrough (cfgT : Tilopay.Config)
    (cfgO : Onvo.Config) (body : GenerateBody) (wT : TiloWire)
    (oO : Nat → OnvoWire) (p : String)
    (hp1 : p ≠ "tilopay") (hp2 : p ≠ "") :
    generatePOST cfgT cfgO { body with provider := some p } wT oO
      = generatePOST cfgT cfgO { body with provider := some "onvo" } wT oO
    ∧ generatePOST cfgT cfgO { body with provider := none } wT oO
      = (.err 400 missingFieldsMsg, [])
    ∧ generatePOST cfgT cfgO { body with provider := some "" } wT oO
      = (.err 400 missingFieldsMsg, []) := by
  rcases body with ⟨a, c, t, pr, d, su, cu⟩
  refine ⟨?_, ?_, ?_⟩ <;>
    (rcases a with _ | a <;> rcases c with _ | c <;> rcases t with _ | t <;>
      rcases su with _ | su <;> rcases cu with _ | cu <;>
      simp_all [generatePOST])

/-- Witness for the amended C5: with every other field valid, provider
"stripe" produces exactly the same response and call trace as provider
"onvo". -/
theorem unknown_provider_fallthrough_witness :
    generatePOST demoCfgT demoCfgO
        { demoGenBody with provider := some "stripe" } demoWireOk
        demoOracleOk
      = generatePOST demoCfgT demoCfgO
        { demoGenBody with provider := some "onvo" } demoWireOk
        demoOracleOk :=
  (unknown_provider_fallthrough demoCfgT demoCfgO demoGenBody demoWireOk
    demoOracleOk "stripe" (by decide) (by decide)).1

theorem Tilopay.tiloPaymentIntent_forall_calls (cfg : Tilopay.Config)
    (p : Tilopay.CreatePaymentIntentParams) (wire : TiloWire)
    (P : Call → Prop)
    (hP : P ⟨"/payment_intents", Tilopay.paymentIntentPayload p⟩) :
    ∀ call ∈ (Tilopay.createPaymentIntent cfg p wire).2, P call := by
  unfold Tilopay.createPaymentIntent
  repeat' split
  all_goals simp [Tilopay.requestCalls, List.forall_mem_cons, hP]

theorem Tilopay.tiloSubscription_forall_calls (cfg : Tilopay.Config)
    (s : Tilopay.CreateSubscriptionParams) (wire : TiloWire)
    (P : Call → Prop)
    (hP : P ⟨"/subscriptions", Tilopay.subscriptionPayload s⟩) :
    ∀ call ∈ (Tilopay.createSubscription cfg s wire).2, P call := by
  unfold Tilopay.createSubscription
  repeat' split
  all_goals simp [Tilopay.requestCalls, List.forall_mem_cons, hP]

theorem Onvo.onvoPaymentIntent_forall_calls (cfg : Onvo.Config)
    (p : Onvo.CreatePaymentIntentParams) (oracle : Nat → OnvoWire)
    (P : Call → Prop)
    (hProd : P ⟨"/products", Onvo.productPayload p.description⟩)
    (hPrice : ∀ pid : Option String,
      P ⟨"/prices", Onvo.oneTimePricePayload pid p.amount p.currency⟩)
    (hIntent : P ⟨"/payment-intents",
      Onvo.paymentIntentPayload p.amount p.currency p.description⟩)
    (hCheck : ∀ items : List LineItem,
      P ⟨"/checkout/sessions/one-time-link",
        Onvo.checkoutPayload items p.success_url p.cancel_url⟩) :
    ∀ call ∈ (Onvo.createPaymentIntent cfg p oracle).2, P call := by
  by_cases hsk : cfg.secretKey = "" <;>
    (unfold Onvo.createPaymentIntent
     repeat' split
     all_goals
       simp [Onvo.requestCalls, hsk, List.forall_mem_cons, hProd, hPrice,
         hIntent, hCheck])

theorem Onvo.onvoSubscription_forall_calls (cfg : Onvo.Config)
    (s : Onvo.CreateSubscriptionParams) (oracle : Nat → OnvoWire)
    (P : Call → Prop)
    (hCust : P ⟨"/customers", Onvo.customerPayload⟩)
    (hProd : P ⟨"/products", Onvo.productPayload s.description⟩)
    (hPrice : ∀ pid : Option String,
      P ⟨"/prices", Onvo.recurringPricePayload pid s.amount s.currency
        s.interval⟩)
    (hSub : ∀ cid pid : Option String,
      P ⟨"/subscriptions", Onvo.subscriptionPayload cid pid⟩)
    (hCheck : ∀ items : List LineItem,
      P ⟨"/checkout/sessions/one-time-link",
        Onvo.checkoutPayload items s.success_url s.cancel_url⟩) :
    ∀ call ∈ (Onvo.createSubscription cfg s oracle).2, P call := by
  by_cases hsk : cfg.secretKey = "" <;>
    (unfold Onvo.createSubscription
     repeat' split
     all_goals
       simp [Onvo.requestCalls, hsk, List.forall_mem_cons, hCust, hProd,
         hPrice, hSub, hCheck])

/-- A recurring generate-route request (the route has no interval field
at all, so "interval absent" is the only possible shape). -/
def demoGenRecurring : GenerateBody :=
  { demoGenBody with type := some "recurring", provider := some "onvo" }

/-- Counterexample to claim C6: a recurring request with no interval (the
generate route does not even read one) is not rejected — it succeeds with
200 after the 5-call subscription flow, and the hardcoded interval
"month" (count 1) is what reaches the recurring Price payload. -/
theorem generate_recurring_ignores_interval_cex :
    (generatePOST demoCfgT demoCfgO demoGenRecurring demoWireOk
        demoOracleOk).1
      = .ok (some "https://pay.example/abc")
    ∧ ((generatePOST demoCfgT demoCfgO demoGenRecurring demoWireOk
        demoOracleOk).2.map fun call => call.payload.recurring)
      = [none, none, some ⟨"month", 1⟩, none, none] := by decide

/-- Claim C6 as amended: the adapters' interval validators accept exactly
"month" and "year", but the generate route never reads or validates an
interval — it hardcodes "month", so every payload of every dispatched
flow carries either no interval or the interval "month" (count 1),
whatever the caller requested. -/
theorem interval_month_hardcoded (cfgT : Tilopay.Config)
    (cfgO : Onvo.Config) (body : GenerateBody) (wT : TiloWire)
    (oO : Nat → OnvoWire) :
    (∀ i : String,
      Onvo.validateInterval i = .ok () ↔ (i = "month" ∨ i = "year")) ∧
    (∀ i : String,
      Tilopay.validateInterval i = .ok () ↔ (i = "month" ∨ i = "year")) ∧
    (∀ call ∈ (generatePOST cfgT cfgO body wT oO).2,
      (call.payload.interval = none ∨
        call.payload.interval = some "month") ∧
      (call.payload.recurring = none ∨
        call.payload.recurring = some ⟨"month", 1⟩)) := by
  refine ⟨?_, ?_, ?_⟩
  · intro i
    unfold Onvo.validateInterval
    split_ifs with h
    · simp [h.1, h.2]
    · simp only [not_and_or, not_not] at h
      simpa using h
  · intro i
    unfold Tilopay.validateInterval
    split_ifs with h
    · simp [h.1, h.2]
    · simp only [not_and_or, not_not] at h
      simpa using h
  · rcases body with ⟨a, c, t, pr, d, su, cu⟩
    intro call hc
    rcases a with _ | a <;> rcases c with _ | c <;> rcases t with _ | t <;>
      rcases pr with _ | pr <;> rcases su with _ | su <;>
      rcases cu with _ | cu <;>
      simp only [generatePOST] at hc <;>
      try (simp at hc)
    split at hc
    · simp at hc
    · split at hc
      · split at hc
        · exact Tilopay.tiloSubscription_forall_calls _ _ _
            (fun call => (call.payload.interval = none ∨
                call.payload.interval = some "month") ∧
              (call.payload.recurring = none ∨
                call.payload.recurring = some ⟨"month", 1⟩))
            (by simp [Tilopay.subscriptionPayload]) call hc
        · exact Tilopay.tiloPaymentIntent_forall_calls _ _ _
            (fun call => (call.payload.interval = none ∨
                call.payload.interval = some "month") ∧
              (call.payload.recurring = none ∨
                call.payload.recurring = some ⟨"month", 1⟩))
            (by simp [Tilopay.paymentIntentPayload]) call hc
      · split at hc
        · exact Onvo.onvoSubscription_forall_calls _ _ _
            (fun call => (call.payload.interval = none ∨
                call.payload.interval = some "month") ∧
              (call.payload.recurring = none ∨
                call.payload.recurring = some ⟨"month", 1⟩))
            (by simp [Onvo.customerPayload])
            (by simp [Onvo.productPayload])
            (fun pid => by simp [Onvo.recurringPricePayload])
            (fun cid pid => by simp [Onvo.subscriptionPayload])
            (fun items => by simp [Onvo.checkoutPayload]) call hc
        · exact Onvo.onvoPaymentIntent_forall_calls _ _ _
            (fun call => (call.payload.interval = none ∨
                call.payload.interval = some "month") ∧
              (call.payload.recurring = none ∨
                call.payload.recurring = some ⟨"month", 1⟩))
            (by simp [Onvo.productPayload])
            (fun pid => by simp [Onvo.oneTimePricePayload])
            (by simp [Onvo.paymentIntentPayload])
            (fun items => by simp [Onvo.checkoutPayload]) call hc

/-- Witness for the amended C6: the recurring-price call of the demo
recurring run carries exactly interval "month" with count 1. -/
theorem interval_month_hardcoded_witness :
    ((⟨"/prices", Onvo.recurringPricePayload (some "res_1") 1000 "USD"
        "month"⟩ : Call).payload.interval = none ∨
      (⟨"/prices", Onvo.recurringPricePayload (some "res_1") 1000 "USD"
        "month"⟩ : Call).payload.interval = some "month") ∧
    ((⟨"/prices", Onvo.recurringPricePayload (some "res_1") 1000 "USD"
        "month"⟩ : Call).payload.recurring = none ∨
      (⟨"/prices", Onvo.recurringPricePayload (some "res_1") 1000 "USD"
        "month"⟩ : Call).payload.recurring = some ⟨"month", 1⟩) :=
  (interval_month_hardcoded demoCfgT demoCfgO demoGenRecurring demoWireOk
    demoOracleOk).2.2
    ⟨"/prices", Onvo.recurringPricePayload (some "res_1") 1000 "USD"
      "month"⟩ (by decide)

theorem jsRound_eq (q : ℚ) (n : ℤ) (h1 : (n : ℚ) ≤ q + 1 / 2)
    (h2 : q + 1 / 2 < n + 1) : jsRound q = n := by
  unfold jsRound
  rw [Int.floor_eq_iff]
  refine ⟨h1, by exact_mod_cast h2⟩

theorem Tilopay.tiloValidateAmount_ok_iff (a : ℚ) :
    Tilopay.validateAmount a = .ok () ↔ (a.den = 1 ∧ 0 < a) := by
  unfold Tilopay.validateAmount
  split_ifs with h
  · refine iff_of_false (by simp) ?_
    rintro ⟨hd, hp⟩
    rcases h with h | h
    · exact h hd
    · exact absurd hp (not_lt.mpr h)
  · push_neg at h
    exact iff_of_true rfl h

theorem Tilopay.createPaymentIntent_calls_ne_nil (cfg : Tilopay.Config)
    (p : Tilopay.CreatePaymentIntentParams) (wire : TiloWire)
    (h : (Tilopay.createPaymentIntent cfg p wire).2 ≠ []) :
    Tilopay.validateAmount p.amount = .ok () := by
  unfold Tilopay.createPaymentIntent at h
  repeat' split at h
  all_goals simp_all

theorem Tilopay.createSubscription_calls_ne_nil (cfg : Tilopay.Config)
    (s : Tilopay.CreateSubscriptionParams) (wire : TiloWire)
    (h : (Tilopay.createSubscription cfg s wire).2 ≠ []) :
    Tilopay.validateAmount s.amount = .ok () := by
  unfold Tilopay.createSubscription at h
  repeat' split at h
  all_goals simp_all

/-- The generate-route request of Scenario A read at face value: the
major-unit amount 10 (10.00 USD), one-time, provider TiloPay. -/
def demoGenBody10 : GenerateBody := { demoGenBody with amount := some 10 }

/-- Counterexample to claim C1: the generate route accepts the request
with amount 10 and forwards 10 — not round(10 × 100) = 1000 — in the one
outbound payload; the route performs no minor-unit conversion. -/
theorem generate_amount_not_converted_cex :
    (generatePOST demoCfgT demoCfgO demoGenBody10 demoWireOk
        demoOracleOk).1
      = .ok (some "https://pay.example/abc")
    ∧ ((generatePOST demoCfgT demoCfgO demoGenBody10 demoWireOk
        demoOracleOk).2.map fun call => call.payload.amount)
      = [some 10]
    ∧ (some (10 : ℚ) : Option ℚ)
        ≠ some ((jsRound ((10 : ℚ) * 100) : ℤ) : ℚ) := by
  refine ⟨by decide, by decide, ?_⟩
  have h : jsRound ((10 : ℚ) * 100) = 1000 :=
    jsRound_eq _ _ (by norm_num) (by norm_num)
  rw [h]
  norm_num

/-- Claim C1 as amended: the round(amount × 100) minor-unit conversion
lives in the TiloPay create-link endpoint — there every outbound payload
carries exactly round(a × 100), and any request that results in an
outbound call has a positive converted amount (the adapter's integer
check guards degenerate inputs).  The generate endpoint performs no
conversion: every outbound payload carries the request's amount field
verbatim (it is already minor-unit in that API's contract). -/
theorem amount_conversion_amended (cfgT : Tilopay.Config) (app : AppConfig)
    (raw : CreateLinkRaw) (wire : TiloWire) (body : CreateLinkRequestBody)
    (hv : validateBody raw = .ok body) :
    (∀ call ∈ (createLinkPOST cfgT app raw wire).2,
      call.payload.amount
        = some ((jsRound (body.amount * 100) : ℤ) : ℚ)) ∧
    ((createLinkPOST cfgT app raw wire).2 ≠ [] →
      0 < jsRound (body.amount * 100)) ∧
    (∀ (cfgO : Onvo.Config) (gbody : GenerateBody) (oO : Nat → OnvoWire)
        (a : ℚ), gbody.amount = some a →
      ∀ call ∈ (generatePOST cfgT cfgO gbody wire oO).2,
        (call.payload.amount = none ∨ call.payload.amount = some a) ∧
        (call.payload.unitAmount = none ∨
          call.payload.unitAmount = some a)) := by
  refine ⟨?_, ?_, ?_⟩
  · intro call hc
    unfold createLinkPOST at hc
    simp only [hv] at hc
    split at hc
    · exact Tilopay.tiloSubscription_forall_calls _ _ _
        (fun call => call.payload.amount
          = some ((jsRound (body.amount * 100) : ℤ) : ℚ))
        (by simp [Tilopay.subscriptionPayload]) call hc
    · exact Tilopay.tiloPaymentIntent_forall_calls _ _ _
        (fun call => call.payload.amount
          = some ((jsRound (body.amount * 100) : ℤ) : ℚ))
        (by simp [Tilopay.paymentIntentPayload]) call hc
  · intro hne
    unfold createLinkPOST at hne
    simp only [hv] at hne
    have key : Tilopay.validateAmount
        ((jsRound (body.amount * 100) : ℤ) : ℚ) = .ok () := by
      split at hne
      · exact Tilopay.createSubscription_calls_ne_nil _ _ _ hne
      · exact Tilopay.createPaymentIntent_calls_ne_nil _ _ _ hne
    have hpos := (Tilopay.tiloValidateAmount_ok_iff _).mp key
    exact_mod_cast hpos.2
  · intro cfgO gbody oO a ha call hc
    rcases gbody with ⟨ga, gc, gt, gp, gd, gsu, gcu⟩
    simp only at ha
    subst ha
    rcases gc with _ | gc <;> rcases gt with _ | gt <;>
      rcases gp with _ | gp <;> rcases gsu with _ | gsu <;>
      rcases gcu with _ | gcu <;>
      simp only [generatePOST] at hc <;>
      try (simp at hc)
    split at hc
    · simp at hc
    · split at hc
      · split at hc
        · exact Tilopay.tiloSubscription_forall_calls _ _ _
            (fun call =>
              (call.payload.amount = none ∨ call.payload.amount = some a) ∧
              (call.payload.unitAmount = none ∨
                call.payload.unitAmount = some a))
            (by simp [Tilopay.subscriptionPayload]) call hc
        · exact Tilopay.tiloPaymentIntent_forall_calls _ _ _
            (fun call =>
              (call.payload.amount = none ∨ call.payload.amount = some a) ∧
              (call.payload.unitAmount = none ∨
                call.payload.unitAmount = some a))
            (by simp [Tilopay.paymentIntentPayload]) call hc
      · split at hc
        · exact Onvo.onvoSubscription_forall_calls _ _ _
            (fun call =>
              (call.payload.amount = none ∨ call.payload.amount = some a) ∧
              (call.payload.unitAmount = none ∨
                call.payload.unitAmount = some a))
            (by simp [Onvo.customerPayload])
            (by simp [Onvo.productPayload])
            (fun pid => by simp [Onvo.recurringPricePayload])
            (fun cid pid => by simp [Onvo.subscriptionPayload])
            (fun items => by simp [Onvo.checkoutPayload]) call hc
        · exact Onvo.onvoPaymentIntent_forall_calls _ _ _
            (fun call =>
              (call.payload.amount = none ∨ call.payload.amount = some a) ∧
              (call.payload.unitAmount = none ∨
                call.payload.unitAmount = some a))
            (by simp [Onvo.productPayload])
            (fun pid => by simp [Onvo.oneTimePricePayload])
            (by simp [Onvo.paymentIntentPayload])
            (fun items => by simp [Onvo.checkoutPayload]) call hc

/-- A valid create-link raw body: amount 10, USD, one-time. -/
def demoLinkRaw : CreateLinkRaw :=
  ⟨.num 10, .str "USD", .boolean false, .undef⟩

/-- Witness for the amended C1: concretely, the single generate-route
payload of the amount-10 request carries exactly 10. -/
theorem amount_conversion_amended_witness :
    ((⟨"/payment_intents", Tilopay.paymentIntentPayload
        ⟨10, "USD", none, "https://s.example/ok",
          "https://s.example/no"⟩⟩ : Call).payload.amount = none ∨
      (⟨"/payment_intents", Tilopay.paymentIntentPayload
        ⟨10, "USD", none, "https://s.example/ok",
          "https://s.example/no"⟩⟩ : Call).payload.amount
        = some (10 : ℚ)) ∧
    ((⟨"/payment_intents", Tilopay.paymentIntentPayload
        ⟨10, "USD", none, "https://s.example/ok",
          "https://s.example/no"⟩⟩ : Call).payload.unitAmount = none ∨
      (⟨"/payment_intents", Tilopay.paymentIntentPayload
        ⟨10, "USD", none, "https://s.example/ok",
          "https://s.example/no"⟩⟩ : Call).payload.unitAmount
        = some (10 : ℚ)) :=
  (amount_conversion_amended demoCfgT demoApp demoLinkRaw demoWireOk
      ⟨10, "USD", none, false⟩ (by decide)).2.2 demoCfgO demoGenBody10
    demoOracleOk 10 rfl
    ⟨"/payment_intents", Tilopay.paymentIntentPayload
      ⟨10, "USD", none, "https://s.example/ok", "https://s.example/no"⟩⟩
    (by decide)

theorem validateBody_ok_currency (raw : CreateLinkRaw)
    (body : CreateLinkRequestBody) (hv : validateBody raw = .ok body) :
    body.currency = "USD" ∨ body.currency = "CRC" := by
  unfold validateBody at hv
  repeat' split at hv
  all_goals first
    | exact Except.noConfusion hv
    | (injection hv with hb
       subst hb
       simp only [not_and_or, not_not] at *
       tauto)

theorem generate_err_status (cfgT : Tilopay.Config) (cfgO : Onvo.Config)
    (gbody : GenerateBody) (wT : TiloWire) (oO : Nat → OnvoWire)
    (s : Nat) (m : String)
    (h : (generatePOST cfgT cfgO gbody wT oO).1 = .err s m) :
    s = 400 ∨ s = 500 := by
  rcases gbody with ⟨a, c, t, pr, d, su, cu⟩
  rcases a with _ | a <;> rcases c with _ | c <;> rcases t with _ | t <;>
    rcases pr with _ | pr <;> rcases su with _ | su <;>
    rcases cu with _ | cu <;>
    simp only [generatePOST] at h
  all_goals repeat' split at h
  all_goals try (dsimp only at h)
  all_goals try (unfold tiloToGenerateResponse at h)
  all_goals try (unfold onvoToGenerateResponse at h)
  all_goals repeat' split at h
  all_goals first
    | exact RouteResponse.noConfusion h
    | (injection h with h1 h2; omega)

/-- Counterexample to claim C4: a confirmed provider API failure (HTTP
503 from TiloPay) on a valid request to the generate endpoint is returned
as a 500, not a 502-class outcome — the generate route collapses every
thrown error to 500. -/
theorem generate_api_error_maps_to_500_cex :
    (generatePOST demoCfgT demoCfgO demoGenBody
        (.errorResp 503 "Service Unavailable" "" none) demoOracleOk).1
      = .err 500 "TiloPay API error (503): Service Unavailable"
    ∧ (500 : Nat) ≠ 502 := by decide

/-- Claim C4 as amended: a validation failure yields 400 at both
endpoints; at the create-link endpoint a provider API failure carrying an
HTTP status yields 502, while network failures, missing credentials and
all other errors yield 500; the generate endpoint never produces a 502 —
every adapter failure there, provider API failures included, is returned
as a 500-class outcome (its only error statuses are 400 and 500). -/
theorem http_status_classification (cfgT : Tilopay.Config)
    (cfgO : Onvo.Config) (app : AppConfig) (raw : CreateLinkRaw)
    (body : CreateLinkRequestBody) (wire : TiloWire)
    (hv : validateBody raw = .ok body)
    (hcents : 0 < jsRound (body.amount * 100))
    (hsu : Tilopay.validateUrl (app.baseUrl ++ "/success?provider=tilopay")
      "success_url" = .ok ())
    (hcu : Tilopay.validateUrl (app.baseUrl ++ "/cancel?provider=tilopay")
      "cancel_url" = .ok ())
    (hk : cfgT.secretKey ≠ "") :
    (∀ (raw2 : CreateLinkRaw) (m : String), validateBody raw2 = .error m →
      createLinkPOST cfgT app raw2 wire = (.err 400 m, [])) ∧
    (∀ (st : Nat) (stx rw : String) (pe : Option TilopayApiError),
      st ≠ 0 →
      ((createLinkPOST cfgT app raw (.errorResp st stx rw pe)).1).status
        = 502) ∧
    (∀ m : String,
      ((createLinkPOST cfgT app raw (.netFail m)).1).status = 500) ∧
    (∀ cfgT2 : Tilopay.Config, cfgT2.secretKey = "" →
      ((createLinkPOST cfgT2 app raw wire).1).status = 500) ∧
    (∀ (gbody : GenerateBody) (wT : TiloWire) (oO : Nat → OnvoWire)
        (s : Nat) (m : String),
      (generatePOST cfgT cfgO gbody wT oO).1 = .err s m →
      s = 400 ∨ s = 500) := by
  have hamt : Tilopay.validateAmount
      ((jsRound (body.amount * 100) : ℤ) : ℚ) = .ok () := by
    rw [Tilopay.tiloValidateAmount_ok_iff]
    exact ⟨Rat.den_intCast _, by exact_mod_cast hcents⟩
  have hcur : Tilopay.validateCurrency body.currency = .ok () :=
    Tilopay.tiloValidateCurrency_ok _ (validateBody_ok_currency raw body hv)
  have hint : Tilopay.validateInterval "month" = .ok () :=
    Tilopay.tiloValidateInterval_ok _ (Or.inl rfl)
  refine ⟨?_, ?_, ?_, ?_, ?_⟩
  · intro raw2 m h
    unfold createLinkPOST
    simp [h]
  · intro st stx rw pe hst
    unfold createLinkPOST
    simp only [hv]
    by_cases hr : body.isRecurring = true <;>
      [rw [if_pos hr]; rw [if_neg hr]] <;>
      simp [Tilopay.createSubscription, Tilopay.createPaymentIntent,
        hamt, hcur, hint, hsu, hcu, Tilopay.requestOutcome, if_neg hk,
        createLinkStatus, RouteResponse.status, hst]
  · intro m
    unfold createLinkPOST
    simp only [hv]
    by_cases hr : body.isRecurring = true <;>
      [rw [if_pos hr]; rw [if_neg hr]] <;>
      simp [Tilopay.createSubscription, Tilopay.createPaymentIntent,
        hamt, hcur, hint, hsu, hcu, Tilopay.requestOutcome, if_neg hk,
        createLinkStatus, RouteResponse.status]
  · intro cfgT2 hk2
    unfold createLinkPOST
    simp only [hv]
    by_cases hr : body.isRecurring = true <;>
      [rw [if_pos hr]; rw [if_neg hr]] <;>
      simp [Tilopay.createSubscription, Tilopay.createPaymentIntent,
        hamt, hcur, hint, hsu, hcu, Tilopay.requestOutcome, hk2,
        createLinkStatus, RouteResponse.status]
  · intro gbody wT oO s m h
    exact generate_err_status cfgT cfgO gbody wT oO s m h

/-- Witness for the amended C4: at the create-link endpoint the same 503
provider failure is classified as a 502. -/
theorem http_status_classification_witness :
    ((createLinkPOST demoCfgT demoApp demoLinkRaw
        (.errorResp 503 "Service Unavailable" "" none)).1).status = 502 :=
  (http_status_classification demoCfgT demoCfgO demoApp demoLinkRaw
      ⟨10, "USD", none, false⟩ demoWireOk (by decide)
      (by
        show 0 < jsRound ((10 : ℚ) * 100)
        rw [jsRound_eq ((10 : ℚ) * 100) 1000 (by norm_num) (by norm_num)]
        decide)
      (by decide) (by decide) (by decide)).2.1
    503 "Service Unavailable" "" none (by decide)
